import Mathlib

/-!
Shallow embedding of the incremental reconciliation and consumption-classification
engine of the enel-system repository, together with proofs of the specified
properties.  Numeric fields are modelled as rationals (`ℚ`); Python `int` fields
are modelled as `ℤ` or `ℕ`; fallible conversions return `Option`.  Python string
operations (`replace`, `split`, `strip`, `in`, `startswith`) are modelled by
structurally recursive functions on the character list of a `String`, so that
every definition evaluates on concrete inputs.
-/

namespace EnelSystem

/-! ### Consumption classifier (`src/processor/classificador_consumo.py`) -/

/-- Result record of `determinar_tipo_alerta_consumo`
(`src/processor/classificador_consumo.py`). -/
structure ClassificacaoConsumo where
  tipo_alerta : String
  classificacao : String
  porcentagem_consumo : ℚ
  diferenca_percentual : ℚ
  diferenca_absoluta : ℚ
  status_cor : String
deriving Repr, DecidableEq

/-- `determinar_tipo_alerta_consumo(consumo_atual, media_6_meses)` from
`src/processor/classificador_consumo.py` lines 38-122.  Python's
`not consumo_atual or consumo_atual <= 0` on a number is equivalent to
`consumo_atual ≤ 0` (the truthiness test only adds the `0` case, already
covered by `≤ 0`). -/
def determinar_tipo_alerta_consumo (consumo_atual media_6_meses : ℚ) :
    ClassificacaoConsumo :=
  if consumo_atual ≤ 0 then
    ⟨"sem_dados", "Sem Dados", 0, 0, 0, "cinza"⟩
  else if media_6_meses ≤ 0 then
    ⟨"sem_historico", "Sem Histórico", 100, 0, 0, "cinza"⟩
  else
    let porcentagem_consumo := consumo_atual / media_6_meses * 100
    let diferenca_percentual := (consumo_atual - media_6_meses) / media_6_meses * 100
    let diferenca_absoluta := consumo_atual - media_6_meses
    if 150 < porcentagem_consumo then
      ⟨"consumo_critico", "Crítico", porcentagem_consumo, diferenca_percentual,
        diferenca_absoluta, "vermelho"⟩
    else if 100 ≤ porcentagem_consumo ∧ porcentagem_consumo ≤ 150 then
      ⟨"consumo_alto", "Alto", porcentagem_consumo, diferenca_percentual,
        diferenca_absoluta, "laranja"⟩
    else if 50 ≤ porcentagem_consumo ∧ porcentagem_consumo < 100 then
      ⟨"consumo_acima_media", "Acima da Média", porcentagem_consumo,
        diferenca_percentual, diferenca_absoluta, "amarelo"⟩
    else if porcentagem_consumo < 50 then
      ⟨"consumo_moderado", "Moderado", porcentagem_consumo, diferenca_percentual,
        diferenca_absoluta, "verde"⟩
    else
      ⟨"consumo_normal", "Normal", porcentagem_consumo, diferenca_percentual,
        diferenca_absoluta, "azul"⟩

/-! ### Historical-average calculator (`src/processor/calculo_enel.py`) -/

/-- One entry of the consumption history handed to the historical-average
calculator (`{"mes_ano": ..., "consumo": ..., "tipo": ...}` dicts in
`src/processor/calculo_enel.py`). -/
structure HistoricoItem where
  mes_ano : String
  consumo : ℚ
  tipo : String
deriving Repr, DecidableEq, Inhabited

/-- `calcular_media_e_diferenca_enel(historico_consumo)` from
`src/processor/calculo_enel.py` lines 33-78: current consumption is the first
entry; the trailing window is `historico_consumo[1:7]`; window entries with
non-positive consumption are dropped; the mean of the remaining entries gives
the deviation percentage. -/
def calcular_media_e_diferenca_enel (historico_consumo : List HistoricoItem) :
    ℚ × ℚ × ℚ :=
  match historico_consumo with
  | [] => (0, 0, 0)
  | item :: resto =>
    let consumo_atual := item.consumo
    if resto = [] then (consumo_atual, 0, 0)
    else
      let ultimos_6_meses := ((item :: resto).drop 1).take 6
      if ultimos_6_meses = [] then (consumo_atual, 0, 0)
      else
        let consumos_6_meses :=
          (ultimos_6_meses.filter (fun x => decide (0 < x.consumo))).map
            (fun x => x.consumo)
        if consumos_6_meses = [] then (consumo_atual, 0, 0)
        else
          let media_6_meses := consumos_6_meses.sum / consumos_6_meses.length
          let diferenca_percentual :=
            if 0 < media_6_meses then
              (consumo_atual - media_6_meses) / media_6_meses * 100
            else 0
          (consumo_atual, media_6_meses, diferenca_percentual)

/-! ### Python string primitives used by the extractor and the ledger -/

/-- Fuel-indexed engine of Python `str.replace`: scans the character list left
to right, replacing every occurrence of `pat` by `rep`.  The fuel (the length
of the scanned list) makes the recursion structural. -/
def replace_fuel (rep pat : List Char) : ℕ → List Char → List Char
  | 0, l => l
  | _ + 1, [] => []
  | fuel + 1, c :: rest =>
    if pat ≠ [] ∧ (c :: rest).take pat.length = pat then
      rep ++ replace_fuel rep pat fuel ((c :: rest).drop pat.length)
    else c :: replace_fuel rep pat fuel rest

/-- Python `s.replace(pat, rep)` (the source never calls it with an empty
pattern). -/
def py_replace (s pat rep : String) : String :=
  ⟨replace_fuel rep.data pat.data s.data.length s.data⟩

/-- Python `s.split(sep)` for a one-character separator: splits at every
occurrence, keeping empty segments. -/
def py_split (sep : Char) : List Char → List (List Char)
  | [] => [[]]
  | c :: rest =>
    let r := py_split sep rest
    if c = sep then [] :: r
    else
      match r with
      | [] => [[c]]
      | h :: t => (c :: h) :: t

/-- Python `s.strip()`: drops whitespace from both ends. -/
def py_strip (s : String) : String :=
  ⟨((s.data.dropWhile Char.isWhitespace).reverse.dropWhile
      Char.isWhitespace).reverse⟩

/-- Python `c in s` for a single character. -/
def py_contains (s : String) (c : Char) : Bool :=
  s.data.any (fun d => d == c)

/-- Python `s.startswith(pat)`. -/
def py_startswith (s pat : String) : Bool :=
  decide (s.data.take pat.data.length = pat.data)

/-- Numeric value of a digit string (helper for the `float` model). -/
def valor_digitos (l : List Char) : ℕ :=
  l.foldl (fun acc c => 10 * acc + (c.toNat - 48)) 0

/-- Python `float(...)` restricted to the unsigned decimal literals that reach
it in this code path (digits with at most one dot); any other input raises
`ValueError`, modelled as `none`. -/
def float_of_string (s : String) : Option ℚ :=
  match py_split '.' s.data with
  | [inteiro] =>
    if inteiro ≠ [] ∧ inteiro.all Char.isDigit then
      some ((valor_digitos inteiro : ℚ))
    else none
  | [inteiro, fracao] =>
    if (inteiro ≠ [] ∨ fracao ≠ []) ∧ inteiro.all Char.isDigit ∧
        fracao.all Char.isDigit then
      some ((valor_digitos inteiro : ℚ) +
        (valor_digitos fracao : ℚ) / 10 ^ fracao.length)
    else none
  | _ => none

/-! ### Monetary normalization (`src/processor/pdf_processor.py`) -/

/-- The four-branch cleaning of a raw monetary string shared by
`_extrair_campos_enel` (lines 282-298) and `converter_valor_monetario`
(lines 326-334) of `src/processor/pdf_processor.py`: a comma makes the string
Brazilian-style (strip dots, comma becomes the decimal point); otherwise a dot
followed by exactly two final digits is the decimal point; otherwise dots are
thousands separators and are stripped; otherwise the string is left as is. -/
def valor_limpo (valor_str : String) : String :=
  if py_contains valor_str ',' then
    py_replace (py_replace valor_str "." "") "," "."
  else if py_contains valor_str '.' ∧
      ((py_split '.' valor_str.data).getLastD []).length = 2 then
    valor_str
  else if py_contains valor_str '.' then
    py_replace valor_str "." ""
  else
    valor_str

/-- `converter_valor_monetario(valor_str)` from `src/processor/pdf_processor.py`
lines 321-336: `None`/empty/`"N/A"` yield `0.0`; otherwise the cleaned string is
parsed, any exception yielding `0.0`. -/
def converter_valor_monetario (valor_str : Option String) : ℚ :=
  match valor_str with
  | none => 0
  | some s =>
    if s = "" ∨ s = "N/A" then 0
    else (float_of_string (valor_limpo (py_strip s))).getD 0

/-- Outcome of the amount stage of `_extrair_campos_enel`
(`src/processor/pdf_processor.py` lines 278-310): the parsed amount (`None` on
failure) and the `erro_extracao_valor` flag. -/
structure ValorExtraido where
  valor_total_num : Option ℚ
  erro_extracao_valor : Option String
deriving Repr, DecidableEq

/-- The amount stage of `_extrair_campos_enel`: `valor_total` is the raw string
captured by the first matching amount pattern (`none` when no pattern matched,
in which case the field holds `"N/A"`).  No match, or a failed conversion,
sets `valor_total_num` to `None` (the unresolved marker) and raises
`erro_extracao_valor` — never a number. -/
def extrair_valor_total (valor_total : Option String) : ValorExtraido :=
  match valor_total with
  | none => ⟨none, some "Valor total não encontrado"⟩
  | some s =>
    match float_of_string (valor_limpo (py_strip s)) with
    | some v => ⟨some v, none⟩
    | none => ⟨none, some ("Erro conversão: " ++ s)⟩

/-! ### Two-decimal formatting and rounding used when filling ledger cells -/

/-- Models Python `f"{v:.2f}".replace('.', ',')`: render `v` with exactly two
decimals and a comma as the decimal separator.  Python's float formatting
rounds ties to even; no verified statement depends on a tie, so half-up
rounding is used. -/
def formatar_2_casas (v : ℚ) : String :=
  let n : ℤ := round (v * 100)
  let inteiro := toString (n.natAbs / 100)
  let casas := n.natAbs % 100
  let fracao := if casas < 10 then "0" ++ toString casas else toString casas
  (if n < 0 then "-" else "") ++ inteiro ++ "," ++ fracao

/-- Python `round(x, 2)` (ties: see `formatar_2_casas`). -/
def round2 (v : ℚ) : ℚ := (round (v * 100) : ℚ) / 100

/-! ### Reconciliation ledger (`src/processor/planilha_manager.py`) -/

/-- One row of the monthly control sheet: the 18 columns of the real ENEL
sheet plus the BRK-style `Status` column
(`src/processor/planilha_manager.py` lines 273-314). -/
structure Registro where
  casa_oracao : String
  competencia : String
  data_emissao : String
  nota_fiscal : String
  vencimento : String
  valor : String
  consumo_kwh : String
  media_6_meses : ℚ
  diferenca_percentual : ℚ
  porcentagem_consumo : ℚ
  alerta_consumo : String
  sistema_fotovoltaico : String
  compensacao_tusd : ℚ
  compensacao_te : ℚ
  total_compensacao : ℚ
  valor_integral_sem_fv : ℚ
  percentual_economia_fv : ℚ
  numero_instalacao : String
  status : String
deriving Repr, DecidableEq, Inhabited

/-- The invoice-data dict handed to the incremental ledger update
(`dados_fatura`, produced by the field extractor; `consumo_kwh_num` is a
Python `int`, `valor_total_num` is `None` exactly when extraction failed). -/
structure DadosFatura where
  numero_instalacao : String
  arquivo : String
  valor_total_num : Option ℚ
  competencia : String
  data_emissao : String
  nota_fiscal : String
  data_vencimento : String
  consumo_kwh_num : ℤ
  sistema_fotovoltaico : String
  compensacao_tusd_num : ℚ
  compensacao_te_num : ℚ
  total_compensacao : ℚ
deriving Repr, DecidableEq, Inhabited

/-- The four consumption-analysis values written into a row. -/
structure MediasConsumo where
  media_6_meses : ℚ
  diferenca_percentual : ℚ
  porcentagem_consumo : ℚ
  alerta_consumo : String
deriving Repr, DecidableEq

/-- `_calcular_medias_consumo_sem_pandas(indice_registro, consumo_atual)` from
`src/processor/planilha_manager.py` lines 451-488, as the values it writes
into the row: the trailing average is set to the current consumption itself
(`media_6_meses = consumo_atual`, the history wiring is absent), then the
difference, percentage and alert are computed from that placeholder. -/
def calcular_medias_consumo_sem_pandas (consumo_atual : ℚ) : MediasConsumo :=
  let media_6_meses := consumo_atual
  if 0 < media_6_meses then
    ⟨round2 media_6_meses,
     round2 ((consumo_atual - media_6_meses) / media_6_meses * 100),
     round2 (consumo_atual / media_6_meses * 100),
     (determinar_tipo_alerta_consumo consumo_atual media_6_meses).classificacao⟩
  else
    ⟨round2 media_6_meses, round2 0, round2 100, "Normal"⟩

/-- The row mutation performed on acceptance by
`processar_fatura_incremental_sem_pandas`
(`src/processor/planilha_manager.py` lines 388-435): fill the cells from the
invoice data (an unresolved amount writes the `ERRO_EXTRAÇÃO` marker), compute
the photovoltaic economics when the amount is resolved, run the consumption
analysis, and set `Status` to `Recebida`. -/
def atualizar_registro (registro : Registro) (dados : DadosFatura) : Registro :=
  let valor_celula :=
    match dados.valor_total_num with
    | none => "ERRO_EXTRAÇÃO"
    | some v => "R$ " ++ formatar_2_casas v
  let consumo : ℚ := (dados.consumo_kwh_num : ℚ)
  let medias := calcular_medias_consumo_sem_pandas consumo
  let registro1 : Registro :=
    { registro with
      valor := valor_celula
      competencia := dados.competencia
      data_emissao := dados.data_emissao
      nota_fiscal := dados.nota_fiscal
      vencimento := dados.data_vencimento
      consumo_kwh := formatar_2_casas consumo ++ " kWh"
      sistema_fotovoltaico := dados.sistema_fotovoltaico
      compensacao_tusd := dados.compensacao_tusd_num
      compensacao_te := dados.compensacao_te_num
      total_compensacao := dados.total_compensacao
      media_6_meses := medias.media_6_meses
      diferenca_percentual := medias.diferenca_percentual
      porcentagem_consumo := medias.porcentagem_consumo
      alerta_consumo := medias.alerta_consumo
      status := "Recebida" }
  match dados.valor_total_num with
  | none => registro1
  | some v =>
    let valor_integral := v + dados.total_compensacao
    if 0 < valor_integral then
      { registro1 with
        valor_integral_sem_fv := valor_integral
        percentual_economia_fv :=
          round2 (dados.total_compensacao / valor_integral * 100) }
    else
      { registro1 with valor_integral_sem_fv := valor_integral }

/-- The linear search of `processar_fatura_incremental_sem_pandas` (lines
356-362): first row whose stripped `Numero_Instalacao` equals the key,
together with its index. -/
def buscar_registro (numero : String) : List Registro → Option (ℕ × Registro)
  | [] => none
  | registro :: resto =>
    if py_strip registro.numero_instalacao = numero then some (0, registro)
    else (buscar_registro numero resto).map (fun par => (par.1 + 1, par.2))

/-- The mutable state of `PlanilhaManagerEnel` relevant to incremental
acceptance: the control rows and the BRK-style duplicate statistics
(`instalacoes_reprocessadas` keeps the installation/file pairs; the wall-clock
timestamp is omitted). -/
structure PlanilhaState where
  controle_mensal_dados : List Registro
  faturas_duplicadas : ℕ
  instalacoes_reprocessadas : List (String × String)
deriving Repr, DecidableEq

/-- `processar_fatura_incremental_sem_pandas(dados_fatura)` from
`src/processor/planilha_manager.py` lines 336-449: no loaded rows or an
unknown installation returns `False` without changes; an already-`Recebida`
row counts a duplicate and returns `False` without touching the rows; an
outstanding row is updated in place and the call returns `True`. -/
def processar_fatura_incremental_sem_pandas (st : PlanilhaState)
    (dados : DadosFatura) : Bool × PlanilhaState :=
  if st.controle_mensal_dados = [] then (false, st)
  else
    let numero_instalacao := py_strip dados.numero_instalacao
    match buscar_registro numero_instalacao st.controle_mensal_dados with
    | none => (false, st)
    | some par =>
      if par.2.status = "Recebida" then
        (false,
         { st with
           faturas_duplicadas := st.faturas_duplicadas + 1
           instalacoes_reprocessadas := st.instalacoes_reprocessadas ++
             [(numero_instalacao, dados.arquivo)] })
      else
        (true,
         { st with
           controle_mensal_dados := st.controle_mensal_dados.set par.1
             (atualizar_registro par.2 dados) })

/-! ### Ledger export totals (`gerar_planilha_excel_sem_pandas`) -/

/-- Parse one `Valor` cell back to a number, as the export comprehensions do:
`float(valor.replace('R$ ', '').replace(',', '.'))`. -/
def parse_celula_valor (s : String) : Option ℚ :=
  float_of_string (py_replace (py_replace s "R$ " "") "," ".")

/-- The grand total of `gerar_planilha_excel_sem_pandas`
(`src/processor/planilha_manager.py` lines 1172-1176): sums the parsed `Valor`
over exactly the rows whose cell starts with `R$`; a parse failure there
raises and aborts the export, modelled by `Option`. -/
def total_geral (dados : List Registro) : Option ℚ :=
  ((dados.filter (fun registro => py_startswith registro.valor "R$")).mapM
    (fun registro => parse_celula_valor registro.valor)).map List.sum

/-- The per-group subtotal of `escrever_grupo` (lines 1137-1149): rows whose
`Valor` starts with `R$` contribute their parsed value, a row failing to parse
is skipped (`except: pass`), all other rows contribute nothing. -/
def subtotal_grupo (dados_grupo : List Registro) : ℚ :=
  (dados_grupo.map (fun registro =>
    if py_startswith registro.valor "R$" then
      (parse_celula_valor registro.valor).getD 0
    else 0)).sum

/-! ### Persistent record store (`src/processor/database_enel.py`) -/

/-- One row of the `faturas_enel` SQLite table, restricted to the fields
`inserir_fatura` writes that the claims mention (`hash_arquivo` and the
base64 backup are kept as raw byte lists; `valor` is `NULL` exactly when the
amount was unresolved). -/
structure FaturaEnel where
  id : ℕ
  email_id : String
  nome_arquivo_original : String
  hash_arquivo : Option (List ℕ)
  content_bytes : Option (List ℕ)
  numero_instalacao : String
  competencia : String
  valor : Option ℚ
  consumo_kwh : ℤ
  dados_extraidos_ok : Bool
deriving Repr, DecidableEq

/-- The `faturas_enel` table. -/
structure DatabaseState where
  faturas : List FaturaEnel
deriving Repr, DecidableEq

/-- `inserir_fatura(dados_fatura, email_id, pdf_content)` from
`src/processor/database_enel.py` lines 151-229, parametrized by the `md5`
digest function (only the fact that equal bytes give equal digests is used).
Python's `if pdf_content:` is false for `None` and for empty bytes, in which
case no hash is computed and no duplicate check runs; otherwise an existing
row with the same `hash_arquivo` causes rejection (`False`) without
inserting. -/
def inserir_fatura (md5 : List ℕ → List ℕ) (db : DatabaseState)
    (dados : DadosFatura) (email_id : String)
    (pdf_content : Option (List ℕ)) : Bool × DatabaseState :=
  let hash_arquivo : Option (List ℕ) :=
    match pdf_content with
    | some conteudo => if conteudo = [] then none else some (md5 conteudo)
    | none => none
  let content_b64 : Option (List ℕ) :=
    match pdf_content with
    | some conteudo => if conteudo = [] then none else some conteudo
    | none => none
  let duplicada :=
    match hash_arquivo with
    | some h => db.faturas.any (fun f => decide (f.hash_arquivo = some h))
    | none => false
  if duplicada then (false, db)
  else
    (true,
     { faturas := db.faturas ++
        [{ id := db.faturas.length + 1
           email_id := email_id
           nome_arquivo_original := dados.arquivo
           hash_arquivo := hash_arquivo
           content_bytes := content_b64
           numero_instalacao := dados.numero_instalacao
           competencia := dados.competencia
           valor := dados.valor_total_num
           consumo_kwh := dados.consumo_kwh_num
           dados_extraidos_ok := dados.valor_total_num.isSome }] })

/-! ### Notification dispatcher (`src/processor/alertas/alert_processor.py`) -/

/-- One recipient resolved from the CCB base. -/
structure Responsavel where
  nome : String
  user_id : ℕ
  funcao : String
deriving Repr, DecidableEq, Inhabited

/-- Outcome of one `enviar_telegram` / `enviar_telegram_com_anexo` call:
returned `True`, returned `False`, or raised an exception. -/
inductive ResultadoTelegram where
  | ok : ResultadoTelegram
  | falha : ResultadoTelegram
  | excecao : String → ResultadoTelegram
deriving Repr, DecidableEq

/-- One entry of `resultados_envio`. -/
structure DetalheEnvio where
  responsavel : String
  user_id : ℕ
  status : String
  erro : Option String
deriving Repr, DecidableEq, Inhabited

/-- The per-recipient delivery loop of `processar_alerta_fatura_enel`
(`src/processor/alertas/alert_processor.py` lines 193-242): each recipient is
attempted in order inside its own `try`, so one failure or raised exception
never stops the others; returns the detail list and the sent/failed
counters. -/
def enviar_alertas_responsaveis (envio : ℕ → ResultadoTelegram) :
    List Responsavel → List DetalheEnvio × ℕ × ℕ
  | [] => ([], 0, 0)
  | responsavel :: resto =>
    let detalhe : DetalheEnvio :=
      match envio responsavel.user_id with
      | .ok => ⟨responsavel.nome, responsavel.user_id, "sucesso", none⟩
      | .falha => ⟨responsavel.nome, responsavel.user_id, "falha", none⟩
      | .excecao e => ⟨responsavel.nome, responsavel.user_id, "erro", some e⟩
    let resultado := enviar_alertas_responsaveis envio resto
    (detalhe :: resultado.1,
     (if envio responsavel.user_id = .ok then 1 else 0) + resultado.2.1,
     (if envio responsavel.user_id = .ok then 0 else 1) + resultado.2.2)

/-- Step 4 of `processar_alerta_fatura_enel` (lines 160-182): with positive
consumption and positive stored average the message type comes from the shared
classifier; otherwise the `fatura_pendente` template is used. -/
def tipo_alerta_selecionado (consumo_kwh_num media_6_meses : ℚ) : String :=
  if 0 < consumo_kwh_num ∧ 0 < media_6_meses then
    (determinar_tipo_alerta_consumo consumo_kwh_num media_6_meses).tipo_alerta
  else "fatura_pendente"

/-- The canonical correspondence between the classifier's `tipo_alerta` (used
to pick the message template) and its `classificacao` (stored in the ledger),
read off the branches of `determinar_tipo_alerta_consumo`. -/
def classificacao_do_tipo : String → String
  | "sem_dados" => "Sem Dados"
  | "sem_historico" => "Sem Histórico"
  | "consumo_critico" => "Crítico"
  | "consumo_alto" => "Alto"
  | "consumo_acima_media" => "Acima da Média"
  | "consumo_moderado" => "Moderado"
  | "consumo_normal" => "Normal"
  | _ => "Desconhecido"

/-! ### Concrete inputs used by the witnesses -/

/-- An outstanding control row as created by `_criar_controle_mensal_sem_pandas`. -/
def registroExemplo : Registro :=
  { casa_oracao := "PIA Central", competencia := "06/2025", data_emissao := ""
    nota_fiscal := "", vencimento := "15/06/2025", valor := ""
    consumo_kwh := "", media_6_meses := 0, diferenca_percentual := 0
    porcentagem_consumo := 100, alerta_consumo := "Normal"
    sistema_fotovoltaico := "Não", compensacao_tusd := 0, compensacao_te := 0
    total_compensacao := 0, valor_integral_sem_fv := 0
    percentual_economia_fv := 0, numero_instalacao := "123456789"
    status := "Faltando" }

/-- A concrete extracted invoice for installation `123456789`. -/
def dadosExemplo : DadosFatura :=
  { numero_instalacao := "123456789", arquivo := "fatura_junho.pdf"
    valor_total_num := some (12637/100), competencia := "06/2025"
    data_emissao := "10/06/2025", nota_fiscal := "718968230"
    data_vencimento := "14/07/2025", consumo_kwh_num := 280
    sistema_fotovoltaico := "Não", compensacao_tusd_num := 0
    compensacao_te_num := 0, total_compensacao := 0 }

/-- A one-row ledger state holding the outstanding example row. -/
def planilhaExemplo : PlanilhaState := ⟨[registroExemplo], 0, []⟩

/-- The example invoice with an unresolved amount (`valor_total_num = None`). -/
def dadosSemValorExemplo : DadosFatura :=
  { dadosExemplo with
    valor_total_num := none
    arquivo := "fatura_sem_valor.pdf" }

/-- A ledger row carrying the unresolved-amount marker in its `Valor` cell. -/
def linhaErroExemplo : Registro :=
  { registroExemplo with valor := "ERRO_EXTRAÇÃO", status := "Recebida" }

/-- Three concrete notification recipients. -/
def responsaveisExemplo : List Responsavel :=
  [⟨"Ana", 1, "Encarregado"⟩, ⟨"Bruno", 2, "Cooperador"⟩,
   ⟨"Carla", 3, "Encarregado"⟩]

/-- A delivery behaviour where exactly the second recipient's send raises a
transient-remote error. -/
def envioExemplo : ℕ → ResultadoTelegram :=
  fun user_id => if user_id = 2 then .excecao "Timeout remoto" else .ok

/-- The concrete 8-entry history of spec property P3: current 850, six prior
periods 700/800/900/750/850/650, and an ignored 8th entry 999. -/
def historicoP3 : List HistoricoItem :=
  [⟨"12/2024", 850, "ATUAL"⟩, ⟨"11/2024", 700, "HISTORICO"⟩,
   ⟨"10/2024", 800, "HISTORICO"⟩, ⟨"09/2024", 900, "HISTORICO"⟩,
   ⟨"08/2024", 750, "HISTORICO"⟩, ⟨"07/2024", 850, "HISTORICO"⟩,
   ⟨"06/2024", 650, "HISTORICO"⟩, ⟨"05/2024", 999, "HISTORICO"⟩]

end EnelSystem

open EnelSystem

/-- Every element produced by filtering on strictly positive consumption and
projecting to the consumption is strictly positive. -/
lemma mem_validos_pos (l : List HistoricoItem) (x : ℚ)
    (hx : x ∈ (l.filter (fun x => decide (0 < x.consumo))).map
      (fun x => x.consumo)) : 0 < x := by
  rcases List.mem_map.mp hx with ⟨y, hy, rfl⟩
  have := List.of_mem_filter hy
  simpa using this

/-- The mean of a nonempty list of strictly positive rationals is strictly
positive. -/
lemma media_validos_pos (l : List HistoricoItem)
    (hne : (l.filter (fun x => decide (0 < x.consumo))).map
      (fun x => x.consumo) ≠ []) :
    0 < ((l.filter (fun x => decide (0 < x.consumo))).map
      (fun x => x.consumo)).sum /
      (((l.filter (fun x => decide (0 < x.consumo))).map
        (fun x => x.consumo)).length : ℚ) := by
  apply div_pos
  · exact List.sum_pos _ (fun x hx => mem_validos_pos l x hx) hne
  · have : 0 < ((l.filter (fun x => decide (0 < x.consumo))).map
        (fun x => x.consumo)).length := List.length_pos.mpr hne
    exact_mod_cast this

/-- C1: the consumption classifier returns exactly the tier determined by
`percent_of_average = current/trailing_average*100`: `current ≤ 0` yields
`no-data` (`Sem Dados`); otherwise `trailing_average ≤ 0` yields `no-history`
(`Sem Histórico`) with `percent_of_average 100`; otherwise `> 150` is critical,
`[100, 150]` is high, `[50, 100)` is above-average and `< 50` is moderate;
together with the eight concrete boundary evaluations from the spec. -/
theorem C1_classificador_boundaries (c m : ℚ) :
    (c ≤ 0 → (determinar_tipo_alerta_consumo c m).classificacao = "Sem Dados") ∧
    (0 < c → m ≤ 0 →
      (determinar_tipo_alerta_consumo c m).classificacao = "Sem Histórico" ∧
      (determinar_tipo_alerta_consumo c m).porcentagem_consumo = 100) ∧
    (0 < c → 0 < m → 150 < c / m * 100 →
      (determinar_tipo_alerta_consumo c m).classificacao = "Crítico") ∧
    (0 < c → 0 < m → 100 ≤ c / m * 100 → c / m * 100 ≤ 150 →
      (determinar_tipo_alerta_consumo c m).classificacao = "Alto") ∧
    (0 < c → 0 < m → 50 ≤ c / m * 100 → c / m * 100 < 100 →
      (determinar_tipo_alerta_consumo c m).classificacao = "Acima da Média") ∧
    (0 < c → 0 < m → c / m * 100 < 50 →
      (determinar_tipo_alerta_consumo c m).classificacao = "Moderado") ∧
    ((determinar_tipo_alerta_consumo 150 100).classificacao = "Alto" ∧
     (determinar_tipo_alerta_consumo 150.01 100).classificacao = "Crítico" ∧
     (determinar_tipo_alerta_consumo 100 100).classificacao = "Alto" ∧
     (determinar_tipo_alerta_consumo 99.99 100).classificacao = "Acima da Média" ∧
     (determinar_tipo_alerta_consumo 50 100).classificacao = "Acima da Média" ∧
     (determinar_tipo_alerta_consumo 49.99 100).classificacao = "Moderado" ∧
     (determinar_tipo_alerta_consumo 0 100).classificacao = "Sem Dados" ∧
     (determinar_tipo_alerta_consumo 100 0).classificacao = "Sem Histórico") := by
  refine ⟨?_, ?_, ?_, ?_, ?_, ?_, ?_⟩
  · intro h
    simp [determinar_tipo_alerta_consumo, h]
  · intro hc hm
    rw [determinar_tipo_alerta_consumo]
    rw [if_neg (by linarith), if_pos hm]
    exact ⟨rfl, rfl⟩
  · intro hc hm hp
    rw [determinar_tipo_alerta_consumo]
    rw [if_neg (by linarith), if_neg (by linarith)]
    simp only
    rw [if_pos hp]
  · intro hc hm h1 h2
    rw [determinar_tipo_alerta_consumo]
    rw [if_neg (by linarith), if_neg (by linarith)]
    simp only
    rw [if_neg (by linarith), if_pos ⟨h1, h2⟩]
  · intro hc hm h1 h2
    rw [determinar_tipo_alerta_consumo]
    rw [if_neg (by linarith), if_neg (by linarith)]
    simp only
    rw [if_neg (by linarith), if_neg (by intro h; linarith [h.2]), if_pos ⟨h1, h2⟩]
  · intro hc hm h1
    rw [determinar_tipo_alerta_consumo]
    rw [if_neg (by linarith), if_neg (by linarith)]
    simp only
    rw [if_neg (by linarith), if_neg (by intro h; linarith [h.1]),
      if_neg (by intro h; linarith [h.1]), if_pos h1]
  · refine ⟨by norm_num [determinar_tipo_alerta_consumo],
      by norm_num [determinar_tipo_alerta_consumo],
      by norm_num [determinar_tipo_alerta_consumo],
      by norm_num [determinar_tipo_alerta_consumo],
      by norm_num [determinar_tipo_alerta_consumo],
      by norm_num [determinar_tipo_alerta_consumo],
      by norm_num [determinar_tipo_alerta_consumo],
      by norm_num [determinar_tipo_alerta_consumo]⟩

/-- Witness for C1: the classifier at `(150.01, 100)` lands in the critical
tier, obtained by applying the boundary theorem at a concrete input. -/
theorem C1_classificador_boundaries_witness :
    (determinar_tipo_alerta_consumo 150.01 100).classificacao = "Crítico" :=
  (C1_classificador_boundaries 150.01 100).2.2.1 (by norm_num) (by norm_num)
    (by norm_num)

/-- C3: with fewer than 2 history entries the calculator returns
`(current, 0, 0)`; with at least 2 entries the trailing average is the mean of
the entries at positions 1..6 whose consumption is positive, the deviation is
`(current - avg) / avg * 100`, and if no valid window entry remains the result
is `(current, 0, 0)`; moreover only the first 7 entries ever matter, so an 8th
entry never contributes. -/
theorem C3_media_historica (l : List HistoricoItem) :
    (∀ item, l = [item] →
      calcular_media_e_diferenca_enel l = (item.consumo, 0, 0)) ∧
    (∀ item resto, l = item :: resto → resto ≠ [] →
      (((resto.take 6).filter (fun x => decide (0 < x.consumo))).map
          (fun x => x.consumo) = [] →
        calcular_media_e_diferenca_enel l = (item.consumo, 0, 0)) ∧
      (∀ validos,
        validos = ((resto.take 6).filter (fun x => decide (0 < x.consumo))).map
          (fun x => x.consumo) →
        validos ≠ [] →
        calcular_media_e_diferenca_enel l =
          (item.consumo, validos.sum / validos.length,
            (item.consumo - validos.sum / validos.length) /
              (validos.sum / validos.length) * 100))) ∧
    calcular_media_e_diferenca_enel l =
      calcular_media_e_diferenca_enel (l.take 7) := by
  refine ⟨?_, ?_, ?_⟩
  · rintro item rfl
    simp [calcular_media_e_diferenca_enel]
  · rintro item resto rfl hresto
    constructor
    · intro hvazio
      simp only [calcular_media_e_diferenca_enel, List.drop_succ_cons,
        List.drop_zero]
      rw [if_neg hresto, if_neg (by
        rw [List.take_eq_nil_iff]
        simp [hresto]), if_pos hvazio]
    · rintro validos rfl hne
      simp only [calcular_media_e_diferenca_enel, List.drop_succ_cons,
        List.drop_zero]
      rw [if_neg hresto, if_neg (by
        rw [List.take_eq_nil_iff]
        simp [hresto]), if_neg hne, if_pos (media_validos_pos _ hne)]
  · match l with
    | [] => rfl
    | [item] => rfl
    | item :: cabeca :: resto =>
      simp [calcular_media_e_diferenca_enel, List.take_take]

/-- Witness for C3: on the concrete 8-entry history of spec P3, the calculator
averages exactly the 6 entries after the current one (mean 775, deviation
300/31 ≈ 9.68%), ignoring the 8th entry. -/
theorem C3_media_historica_witness :
    calcular_media_e_diferenca_enel historicoP3 = (850, 775, 300/31) := by
  have h := ((C3_media_historica historicoP3).2.1 ⟨"12/2024", 850, "ATUAL"⟩
      [⟨"11/2024", 700, "HISTORICO"⟩, ⟨"10/2024", 800, "HISTORICO"⟩,
       ⟨"09/2024", 900, "HISTORICO"⟩, ⟨"08/2024", 750, "HISTORICO"⟩,
       ⟨"07/2024", 850, "HISTORICO"⟩, ⟨"06/2024", 650, "HISTORICO"⟩,
       ⟨"05/2024", 999, "HISTORICO"⟩] rfl (by simp)).2 _ rfl
      (by simp [List.filter])
  rw [h]
  norm_num [List.filter]

/-- C4: the monetary normalization obeys exactly the locale rule: a comma
makes the string Brazilian-style (dots stripped, comma becomes the decimal
point); otherwise a dot whose final segment has exactly two digits is the
decimal point; otherwise dots are stripped as thousands separators; otherwise
the string parses as a plain integer (left unchanged by the cleaning); and the
four concrete round-trips of spec P4 hold. -/
theorem C4_normalizacao_monetaria (s : String) :
    (py_contains s ',' = true →
      valor_limpo s = py_replace (py_replace s "." "") "," ".") ∧
    (py_contains s ',' = false → py_contains s '.' = true →
      ((py_split '.' s.data).getLastD []).length = 2 → valor_limpo s = s) ∧
    (py_contains s ',' = false → py_contains s '.' = true →
      ((py_split '.' s.data).getLastD []).length ≠ 2 →
      valor_limpo s = py_replace s "." "") ∧
    (py_contains s ',' = false → py_contains s '.' = false →
      valor_limpo s = s) ∧
    (converter_valor_monetario (some "1.126,37") = 1126.37 ∧
     converter_valor_monetario (some "126,37") = 126.37 ∧
     converter_valor_monetario (some "126.37") = 126.37 ∧
     converter_valor_monetario (some "1.126") = 1126) := by
  refine ⟨?_, ?_, ?_, ?_, ?_, ?_, ?_, ?_⟩
  · intro h
    simp [valor_limpo, h]
  · intro h1 h2 h3
    rw [valor_limpo, if_neg (by simp [h1]), if_pos ⟨h2, h3⟩]
  · intro h1 h2 h3
    rw [valor_limpo, if_neg (by simp [h1]),
      if_neg (fun h => h3 h.2), if_pos h2]
  · intro h1 h2
    rw [valor_limpo, if_neg (by simp [h1]),
      if_neg (fun h => by simp [h2] at h), if_neg (by simp [h2])]
  · have h1 : valor_limpo (py_strip "1.126,37") = "1126.37" := by decide
    have h2 : py_split '.' ("1126.37").data = [['1','1','2','6'], ['3','7']] := by
      decide
    simp only [converter_valor_monetario]
    rw [if_neg (by decide), h1]
    simp only [float_of_string, h2]
    rw [if_pos (by decide)]
    rw [show valor_digitos ['1','1','2','6'] = 1126 from by decide,
      show valor_digitos ['3','7'] = 37 from by decide]
    norm_num
  · have h1 : valor_limpo (py_strip "126,37") = "126.37" := by decide
    have h2 : py_split '.' ("126.37").data = [['1','2','6'], ['3','7']] := by
      decide
    simp only [converter_valor_monetario]
    rw [if_neg (by decide), h1]
    simp only [float_of_string, h2]
    rw [if_pos (by decide)]
    rw [show valor_digitos ['1','2','6'] = 126 from by decide,
      show valor_digitos ['3','7'] = 37 from by decide]
    norm_num
  · have h1 : valor_limpo (py_strip "126.37") = "126.37" := by decide
    have h2 : py_split '.' ("126.37").data = [['1','2','6'], ['3','7']] := by
      decide
    simp only [converter_valor_monetario]
    rw [if_neg (by decide), h1]
    simp only [float_of_string, h2]
    rw [if_pos (by decide)]
    rw [show valor_digitos ['1','2','6'] = 126 from by decide,
      show valor_digitos ['3','7'] = 37 from by decide]
    norm_num
  · have h1 : valor_limpo (py_strip "1.126") = "1126" := by decide
    have h2 : py_split '.' ("1126").data = [['1','1','2','6']] := by decide
    simp only [converter_valor_monetario]
    rw [if_neg (by decide), h1]
    simp only [float_of_string, h2]
    rw [if_pos (by decide)]
    rw [show valor_digitos ['1','1','2','6'] = 1126 from by decide]
    norm_num

/-- Witness for C4: the Brazilian-format branch applied to the concrete string
`"1.126,37"` — it contains a comma, so dots are stripped and the comma becomes
the decimal point, giving `"1126.37"`. -/
theorem C4_normalizacao_monetaria_witness :
    valor_limpo "1.126,37" =
      py_replace (py_replace "1.126,37" "." "") "," "." :=
  (C4_normalizacao_monetaria "1.126,37").1 (by decide)

/-- The row found by `buscar_registro` satisfies the search predicate. -/
lemma buscar_registro_numero (numero : String) :
    ∀ (l : List Registro) (i : ℕ) (registro : Registro),
      buscar_registro numero l = some (i, registro) →
      py_strip registro.numero_instalacao = numero := by
  intro l
  induction l with
  | nil => intro i registro h; simp [buscar_registro] at h
  | cons cabeca resto ih =>
    intro i registro h
    by_cases hc : py_strip cabeca.numero_instalacao = numero
    · rw [buscar_registro, if_pos hc] at h
      have h2 : cabeca = registro := congrArg Prod.snd (Option.some.inj h)
      rw [← h2]
      exact hc
    · rw [buscar_registro, if_neg hc] at h
      obtain ⟨par, hpar, hmap⟩ := Option.map_eq_some'.mp h
      have h2 : par.2 = registro := congrArg Prod.snd hmap
      rw [← h2]
      exact ih par.1 par.2 (by simpa using hpar)

/-- Replacing the found row by a row with the same (stripped) installation key
leaves the search result at the same index, now returning the new row. -/
lemma buscar_registro_set (numero : String) :
    ∀ (l : List Registro) (i : ℕ) (registro novo : Registro),
      buscar_registro numero l = some (i, registro) →
      py_strip novo.numero_instalacao = numero →
      buscar_registro numero (l.set i novo) = some (i, novo) := by
  intro l
  induction l with
  | nil => intro i registro novo h _; simp [buscar_registro] at h
  | cons cabeca resto ih =>
    intro i registro novo h hnovo
    by_cases hc : py_strip cabeca.numero_instalacao = numero
    · rw [buscar_registro, if_pos hc] at h
      have hi : 0 = i := congrArg Prod.fst (Option.some.inj h)
      rw [← hi]
      simp only [List.set_cons_zero]
      rw [buscar_registro, if_pos hnovo]
    · rw [buscar_registro, if_neg hc] at h
      obtain ⟨par, hpar, hmap⟩ := Option.map_eq_some'.mp h
      have hi : par.1 + 1 = i := congrArg Prod.fst hmap
      rw [← hi]
      simp only [List.set_cons_succ]
      rw [buscar_registro, if_neg hc,
        ih par.1 par.2 novo (by simpa using hpar) hnovo]
      rfl

/-- An accepted row always ends with status `Recebida`. -/
lemma atualizar_registro_status (registro : Registro) (dados : DadosFatura) :
    (atualizar_registro registro dados).status = "Recebida" := by
  rw [atualizar_registro]
  cases dados.valor_total_num with
  | none => rfl
  | some v =>
    dsimp only
    split <;> rfl

/-- Acceptance never rewrites the installation key of the row. -/
lemma atualizar_registro_numero (registro : Registro) (dados : DadosFatura) :
    (atualizar_registro registro dados).numero_instalacao =
      registro.numero_instalacao := by
  rw [atualizar_registro]
  cases dados.valor_total_num with
  | none => rfl
  | some v =>
    dsimp only
    split <;> rfl

/-- C2: for a ledger row matched by the record's installation key and still
outstanding (`Faltando`), the first acceptance returns `True`, rewrites
exactly that row with the record's fields and sets it to `Recebida`; a second
acceptance attempt for the same installation in the same period returns
`False`, leaves every row unchanged, increments the `faturas_duplicadas`
counter and logs the installation as a reprocessing — a reported duplicate,
not an error. -/
theorem C2_aceitacao_idempotente (st : PlanilhaState)
    (dados dados2 : DadosFatura) (i : ℕ) (registro : Registro)
    (hbusca : buscar_registro (py_strip dados.numero_instalacao)
      st.controle_mensal_dados = some (i, registro))
    (hmesma : py_strip dados2.numero_instalacao =
      py_strip dados.numero_instalacao)
    (hstatus : registro.status = "Faltando") :
    (processar_fatura_incremental_sem_pandas st dados).1 = true ∧
    (processar_fatura_incremental_sem_pandas st dados).2.controle_mensal_dados
      = st.controle_mensal_dados.set i (atualizar_registro registro dados) ∧
    (atualizar_registro registro dados).status = "Recebida" ∧
    (processar_fatura_incremental_sem_pandas
      (processar_fatura_incremental_sem_pandas st dados).2 dados2).1 = false ∧
    (processar_fatura_incremental_sem_pandas
        (processar_fatura_incremental_sem_pandas st dados).2
        dados2).2.controle_mensal_dados =
      (processar_fatura_incremental_sem_pandas st dados).2.controle_mensal_dados ∧
    (processar_fatura_incremental_sem_pandas
        (processar_fatura_incremental_sem_pandas st dados).2
        dados2).2.faturas_duplicadas =
      (processar_fatura_incremental_sem_pandas st dados).2.faturas_duplicadas
        + 1 ∧
    (processar_fatura_incremental_sem_pandas
        (processar_fatura_incremental_sem_pandas st dados).2
        dados2).2.instalacoes_reprocessadas =
      (processar_fatura_incremental_sem_pandas
          st dados).2.instalacoes_reprocessadas ++
        [(py_strip dados2.numero_instalacao, dados2.arquivo)] := by
  have hne : st.controle_mensal_dados ≠ [] := by
    intro h
    rw [h] at hbusca
    simp [buscar_registro] at hbusca
  have hprim : processar_fatura_incremental_sem_pandas st dados =
      (true, { st with controle_mensal_dados := st.controle_mensal_dados.set i (atualizar_registro registro dados) }) := by
    rw [processar_fatura_incremental_sem_pandas, if_neg hne]
    dsimp only
    rw [hbusca]
    dsimp only
    rw [if_neg (by rw [hstatus]; decide)]
  have hnovo : py_strip ((atualizar_registro registro dados).numero_instalacao)
      = py_strip dados.numero_instalacao := by
    rw [atualizar_registro_numero]
    exact buscar_registro_numero _ _ _ _ hbusca
  have hbusca2 : buscar_registro (py_strip dados2.numero_instalacao)
      (st.controle_mensal_dados.set i (atualizar_registro registro dados)) =
      some (i, atualizar_registro registro dados) := by
    rw [hmesma]
    exact buscar_registro_set _ _ _ _ _ hbusca hnovo
  have hne2 : st.controle_mensal_dados.set i
      (atualizar_registro registro dados) ≠ [] := by
    intro h
    apply hne
    have hlen := congrArg List.length h
    simp only [List.length_set, List.length_nil] at hlen
    exact List.length_eq_zero.mp hlen
  rw [hprim]
  dsimp only
  rw [processar_fatura_incremental_sem_pandas]
  dsimp only
  rw [if_neg hne2, hbusca2]
  dsimp only
  rw [if_pos (atualizar_registro_status registro dados)]
  exact ⟨rfl, rfl, atualizar_registro_status registro dados, rfl, rfl, rfl, rfl⟩

/-- Witness for C2: on a one-row ledger holding the outstanding example row,
accepting the example invoice twice yields one acceptance and one counted
duplicate rejection with the rows untouched. -/
theorem C2_aceitacao_idempotente_witness :
    (processar_fatura_incremental_sem_pandas planilhaExemplo dadosExemplo).1
      = true ∧
    (processar_fatura_incremental_sem_pandas planilhaExemplo
        dadosExemplo).2.controle_mensal_dados =
      planilhaExemplo.controle_mensal_dados.set 0
        (atualizar_registro registroExemplo dadosExemplo) ∧
    (atualizar_registro registroExemplo dadosExemplo).status = "Recebida" ∧
    (processar_fatura_incremental_sem_pandas
      (processar_fatura_incremental_sem_pandas planilhaExemplo dadosExemplo).2
      dadosExemplo).1 = false ∧
    (processar_fatura_incremental_sem_pandas
        (processar_fatura_incremental_sem_pandas planilhaExemplo
          dadosExemplo).2 dadosExemplo).2.controle_mensal_dados =
      (processar_fatura_incremental_sem_pandas planilhaExemplo
        dadosExemplo).2.controle_mensal_dados ∧
    (processar_fatura_incremental_sem_pandas
        (processar_fatura_incremental_sem_pandas planilhaExemplo
          dadosExemplo).2 dadosExemplo).2.faturas_duplicadas =
      (processar_fatura_incremental_sem_pandas planilhaExemplo
        dadosExemplo).2.faturas_duplicadas + 1 ∧
    (processar_fatura_incremental_sem_pandas
        (processar_fatura_incremental_sem_pandas planilhaExemplo
          dadosExemplo).2 dadosExemplo).2.instalacoes_reprocessadas =
      (processar_fatura_incremental_sem_pandas planilhaExemplo
          dadosExemplo).2.instalacoes_reprocessadas ++
        [(py_strip dadosExemplo.numero_instalacao, dadosExemplo.arquivo)] :=
  C2_aceitacao_idempotente planilhaExemplo dadosExemplo dadosExemplo 0
    registroExemplo (by decide) rfl rfl

/-- C5: a failed amount extraction yields the explicit unresolved marker
(`valor_total_num = None` plus the `erro_extracao_valor` flag), never a
number; the accepted row then carries the `ERRO_EXTRAÇÃO` cell, which does not
start with `R$`; and any row whose `Valor` cell does not start with `R$` is
excluded from both the exported grand total and the group subtotal. -/
theorem C5_marcador_erro_excluido (registro : Registro) (dados : DadosFatura)
    (linha : Registro) (linhas : List Registro) :
    (extrair_valor_total none).valor_total_num = none ∧
    (extrair_valor_total none).erro_extracao_valor =
      some "Valor total não encontrado" ∧
    (dados.valor_total_num = none →
      (atualizar_registro registro dados).valor = "ERRO_EXTRAÇÃO") ∧
    py_startswith "ERRO_EXTRAÇÃO" "R$" = false ∧
    (py_startswith linha.valor "R$" = false →
      total_geral (linha :: linhas) = total_geral linhas ∧
      subtotal_grupo (linha :: linhas) = subtotal_grupo linhas) := by
  refine ⟨rfl, rfl, ?_, by decide, ?_⟩
  · intro h
    simp [atualizar_registro, h]
  · intro h
    constructor
    · simp only [total_geral, List.filter_cons, h]
      rfl
    · simp only [subtotal_grupo, List.map_cons, h, List.sum_cons]
      rw [if_neg (by simp [h])]
      ring

/-- Witness for C5: accepting the concrete no-amount invoice writes the
`ERRO_EXTRAÇÃO` marker, and a concrete marker row adds nothing to the grand
total or to the subtotal. -/
theorem C5_marcador_erro_excluido_witness :
    (atualizar_registro registroExemplo dadosSemValorExemplo).valor =
      "ERRO_EXTRAÇÃO" ∧
    total_geral [linhaErroExemplo] = total_geral [] ∧
    subtotal_grupo [linhaErroExemplo] = subtotal_grupo [] :=
  ⟨(C5_marcador_erro_excluido registroExemplo dadosSemValorExemplo
      linhaErroExemplo []).2.2.1 rfl,
   ((C5_marcador_erro_excluido registroExemplo dadosSemValorExemplo
      linhaErroExemplo []).2.2.2.2 (by decide)).1,
   ((C5_marcador_erro_excluido registroExemplo dadosSemValorExemplo
      linhaErroExemplo []).2.2.2.2 (by decide)).2⟩

/-- C6: inserting raw attachment bytes whose digest is not yet stored persists
the full row and returns `True`; inserting the same raw bytes again — with any
other record and any other `email_id` — is rejected by the content-hash
duplicate check and persists nothing. -/
theorem C6_dedup_conteudo (md5 : List ℕ → List ℕ) (db : DatabaseState)
    (dados1 dados2 : DadosFatura) (email1 email2 : String)
    (conteudo : List ℕ) (hconteudo : conteudo ≠ [])
    (hnovo : ∀ f ∈ db.faturas, f.hash_arquivo ≠ some (md5 conteudo)) :
    (inserir_fatura md5 db dados1 email1 (some conteudo)).1 = true ∧
    (inserir_fatura md5 db dados1 email1 (some conteudo)).2.faturas =
      db.faturas ++
        [⟨db.faturas.length + 1, email1, dados1.arquivo,
          some (md5 conteudo), some conteudo, dados1.numero_instalacao,
          dados1.competencia, dados1.valor_total_num, dados1.consumo_kwh_num,
          dados1.valor_total_num.isSome⟩] ∧
    (inserir_fatura md5
      (inserir_fatura md5 db dados1 email1 (some conteudo)).2
      dados2 email2 (some conteudo)).1 = false ∧
    (inserir_fatura md5
        (inserir_fatura md5 db dados1 email1 (some conteudo)).2
        dados2 email2 (some conteudo)).2 =
      (inserir_fatura md5 db dados1 email1 (some conteudo)).2 := by
  have hdup1 : db.faturas.any
      (fun f => decide (f.hash_arquivo = some (md5 conteudo))) = false := by
    rw [List.any_eq_false]
    intro f hf
    simpa using hnovo f hf
  have hprim : inserir_fatura md5 db dados1 email1 (some conteudo) =
      (true, ⟨db.faturas ++
        [⟨db.faturas.length + 1, email1, dados1.arquivo,
          some (md5 conteudo), some conteudo, dados1.numero_instalacao,
          dados1.competencia, dados1.valor_total_num, dados1.consumo_kwh_num,
          dados1.valor_total_num.isSome⟩]⟩) := by
    rw [inserir_fatura]
    rw [if_neg hconteudo, if_neg hconteudo]
    dsimp only
    rw [hdup1]
    rfl
  have hdup2 : (db.faturas ++
      [(⟨db.faturas.length + 1, email1, dados1.arquivo,
        some (md5 conteudo), some conteudo, dados1.numero_instalacao,
        dados1.competencia, dados1.valor_total_num, dados1.consumo_kwh_num,
        dados1.valor_total_num.isSome⟩ : FaturaEnel)]).any
      (fun f => decide (f.hash_arquivo = some (md5 conteudo))) = true := by
    rw [List.any_eq_true]
    refine ⟨_, List.mem_append_right _ (List.mem_singleton_self _), ?_⟩
    simp
  have hseg : inserir_fatura md5
      (inserir_fatura md5 db dados1 email1 (some conteudo)).2
      dados2 email2 (some conteudo) =
      (false, (inserir_fatura md5 db dados1 email1 (some conteudo)).2) := by
    rw [hprim]
    rw [inserir_fatura]
    dsimp only
    rw [if_neg hconteudo, if_neg hconteudo]
    dsimp only
    rw [hdup2]
    rfl
  exact ⟨by rw [hprim], by rw [hprim], by rw [hseg], by rw [hseg]⟩

/-- Witness for C6: on an empty store, inserting the byte list `[1, 2, 3]`
(with the identity digest) succeeds, and inserting the same bytes under a
different `email_id` is rejected without change. -/
theorem C6_dedup_conteudo_witness :
    (inserir_fatura (fun l => l) ⟨[]⟩ dadosExemplo "email-1"
      (some [1, 2, 3])).1 = true ∧
    (inserir_fatura (fun l => l) ⟨[]⟩ dadosExemplo "email-1"
      (some [1, 2, 3])).2.faturas =
      [] ++ [⟨0 + 1, "email-1", dadosExemplo.arquivo, some [1, 2, 3],
        some [1, 2, 3], dadosExemplo.numero_instalacao,
        dadosExemplo.competencia, dadosExemplo.valor_total_num,
        dadosExemplo.consumo_kwh_num, dadosExemplo.valor_total_num.isSome⟩] ∧
    (inserir_fatura (fun l => l)
      (inserir_fatura (fun l => l) ⟨[]⟩ dadosExemplo "email-1"
        (some [1, 2, 3])).2
      dadosExemplo "email-2" (some [1, 2, 3])).1 = false ∧
    (inserir_fatura (fun l => l)
        (inserir_fatura (fun l => l) ⟨[]⟩ dadosExemplo "email-1"
          (some [1, 2, 3])).2
        dadosExemplo "email-2" (some [1, 2, 3])).2 =
      (inserir_fatura (fun l => l) ⟨[]⟩ dadosExemplo "email-1"
        (some [1, 2, 3])).2 :=
  C6_dedup_conteudo (fun l => l) ⟨[]⟩ dadosExemplo dadosExemplo
    "email-1" "email-2" [1, 2, 3] (by decide) (by simp)

/-- C10: an insert call without raw attachment bytes computes no hash and runs
no duplicate check: whatever the store already holds, the record is always
appended with a null `hash_arquivo` and the call reports success. -/
theorem C10_inserir_sem_bytes (md5 : List ℕ → List ℕ) (db : DatabaseState)
    (dados : DadosFatura) (email_id : String) :
    inserir_fatura md5 db dados email_id none =
      (true, ⟨db.faturas ++
        [⟨db.faturas.length + 1, email_id, dados.arquivo, none, none,
          dados.numero_instalacao, dados.competencia, dados.valor_total_num,
          dados.consumo_kwh_num, dados.valor_total_num.isSome⟩]⟩) := by
  rw [inserir_fatura]
  simp

/-- C8: the delivery loop attempts every recipient independently and in
order: the report has one entry per recipient, and every recipient whose own
delivery returned success is recorded with status `sucesso`, regardless of
what happened to the other recipients (in particular a raised error for one
recipient never erases another recipient's success). -/
theorem C8_isolamento_falhas (envio : ℕ → ResultadoTelegram)
    (responsaveis : List Responsavel) :
    (enviar_alertas_responsaveis envio responsaveis).1.length =
      responsaveis.length ∧
    ∀ i, i < responsaveis.length →
      envio ((responsaveis.getD i default).user_id) = ResultadoTelegram.ok →
      ((enviar_alertas_responsaveis envio responsaveis).1.getD i
        default).status = "sucesso" := by
  induction responsaveis with
  | nil =>
    exact ⟨rfl, fun i hi => absurd hi (by simp)⟩
  | cons responsavel resto ih =>
    constructor
    · simp only [enviar_alertas_responsaveis, List.length_cons]
      rw [ih.1]
    · intro i hi hok
      cases i with
      | zero =>
        simp only [List.getD_cons_zero] at hok
        simp only [enviar_alertas_responsaveis, List.getD_cons_zero, hok]
      | succ j =>
        simp only [List.getD_cons_succ] at hok
        simp only [enviar_alertas_responsaveis, List.getD_cons_succ]
        exact ih.2 j (Nat.lt_of_succ_lt_succ hi) hok

/-- Witness for C8: with three concrete recipients where exactly the second
send raises a transient-remote exception, recipients 1 and 3 are still
reported as `sucesso` and recipient 2 as `erro`. -/
theorem C8_isolamento_falhas_witness :
    ((enviar_alertas_responsaveis envioExemplo responsaveisExemplo).1.getD 0
      default).status = "sucesso" ∧
    ((enviar_alertas_responsaveis envioExemplo responsaveisExemplo).1.getD 1
      default).status = "erro" ∧
    ((enviar_alertas_responsaveis envioExemplo responsaveisExemplo).1.getD 2
      default).status = "sucesso" :=
  ⟨(C8_isolamento_falhas envioExemplo responsaveisExemplo).2 0 (by decide)
      (by decide),
   by decide,
   (C8_isolamento_falhas envioExemplo responsaveisExemplo).2 2 (by decide)
      (by decide)⟩

/-- `round(x, 2)` is the identity on integers. -/
lemma round2_intCast (n : ℤ) : round2 ((n : ℚ)) = (n : ℚ) := by
  rw [round2, show ((n : ℚ) * 100) = (((n * 100 : ℤ)) : ℚ) by push_cast; ring,
    round_intCast]
  push_cast
  ring

/-- The classifier at equal positive current and average lands exactly on the
high tier (`porcentagem_consumo = 100`). -/
lemma determinar_tipo_alerta_consumo_igual (c : ℚ) (hc : 0 < c) :
    (determinar_tipo_alerta_consumo c c).classificacao = "Alto" ∧
    (determinar_tipo_alerta_consumo c c).tipo_alerta = "consumo_alto" := by
  rw [determinar_tipo_alerta_consumo, if_neg (by linarith),
    if_neg (by linarith)]
  dsimp only
  rw [div_self (ne_of_gt hc)]
  rw [if_neg (by norm_num), if_pos (by norm_num)]
  exact ⟨rfl, rfl⟩

/-- For positive consumption, `_calcular_medias_consumo_sem_pandas` writes
the rounded placeholder average, zero difference, 100 percent, and the tier of
the classifier at `(consumo, consumo)`. -/
lemma calcular_medias_consumo_pos (c : ℚ) (hc : 0 < c) :
    calcular_medias_consumo_sem_pandas c =
      ⟨round2 c, 0, 100,
        (determinar_tipo_alerta_consumo c c).classificacao⟩ := by
  rw [calcular_medias_consumo_sem_pandas]
  rw [if_pos hc]
  rw [show (c - c) / c * 100 = (0 : ℚ) by rw [sub_self]; simp]
  rw [div_self (ne_of_gt hc)]
  rw [show (1 : ℚ) * 100 = ((100 : ℤ) : ℚ) by norm_num]
  rw [show (0 : ℚ) = ((0 : ℤ) : ℚ) by norm_num, round2_intCast,
    round2_intCast]
  norm_num

/-- The accepted row carries exactly the consumption-analysis values of
`_calcular_medias_consumo_sem_pandas` at the invoice's consumption. -/
lemma atualizar_registro_medias (registro : Registro) (dados : DadosFatura) :
    (atualizar_registro registro dados).media_6_meses =
      (calcular_medias_consumo_sem_pandas
        ((dados.consumo_kwh_num : ℚ))).media_6_meses ∧
    (atualizar_registro registro dados).diferenca_percentual =
      (calcular_medias_consumo_sem_pandas
        ((dados.consumo_kwh_num : ℚ))).diferenca_percentual ∧
    (atualizar_registro registro dados).porcentagem_consumo =
      (calcular_medias_consumo_sem_pandas
        ((dados.consumo_kwh_num : ℚ))).porcentagem_consumo ∧
    (atualizar_registro registro dados).alerta_consumo =
      (calcular_medias_consumo_sem_pandas
        ((dados.consumo_kwh_num : ℚ))).alerta_consumo := by
  rw [atualizar_registro]
  cases dados.valor_total_num with
  | none => exact ⟨rfl, rfl, rfl, rfl⟩
  | some v =>
    dsimp only
    split <;> exact ⟨rfl, rfl, rfl, rfl⟩

/-- C9: in the incremental (no-pandas) path, for every accepted invoice with
positive integer consumption the persisted trailing average is the invoice's
own consumption, the persisted difference is 0, the percentage is 100 and the
alert tier is `Alto` — regardless of the installation's real history. -/
theorem C9_media_substituta (registro : Registro) (dados : DadosFatura)
    (hpos : 0 < dados.consumo_kwh_num) :
    calcular_medias_consumo_sem_pandas ((dados.consumo_kwh_num : ℚ)) =
      ⟨(dados.consumo_kwh_num : ℚ), 0, 100, "Alto"⟩ ∧
    (atualizar_registro registro dados).media_6_meses =
      (dados.consumo_kwh_num : ℚ) ∧
    (atualizar_registro registro dados).diferenca_percentual = 0 ∧
    (atualizar_registro registro dados).porcentagem_consumo = 100 ∧
    (atualizar_registro registro dados).alerta_consumo = "Alto" := by
  have hq : (0 : ℚ) < (dados.consumo_kwh_num : ℚ) := by exact_mod_cast hpos
  have hmed : calcular_medias_consumo_sem_pandas ((dados.consumo_kwh_num : ℚ))
      = ⟨(dados.consumo_kwh_num : ℚ), 0, 100, "Alto"⟩ := by
    rw [calcular_medias_consumo_pos _ hq, round2_intCast,
      (determinar_tipo_alerta_consumo_igual _ hq).1]
  obtain ⟨h1, h2, h3, h4⟩ := atualizar_registro_medias registro dados
  rw [h1, h2, h3, h4, hmed]
  exact ⟨rfl, rfl, rfl, rfl, rfl⟩

/-- Witness for C9: accepting the concrete 280 kWh invoice stores average
280, difference 0, percentage 100 and tier `Alto`. -/
theorem C9_media_substituta_witness :
    calcular_medias_consumo_sem_pandas
      ((dadosExemplo.consumo_kwh_num : ℚ)) =
      ⟨(dadosExemplo.consumo_kwh_num : ℚ), 0, 100, "Alto"⟩ ∧
    (atualizar_registro registroExemplo dadosExemplo).media_6_meses =
      (dadosExemplo.consumo_kwh_num : ℚ) ∧
    (atualizar_registro registroExemplo dadosExemplo).diferenca_percentual
      = 0 ∧
    (atualizar_registro registroExemplo dadosExemplo).porcentagem_consumo
      = 100 ∧
    (atualizar_registro registroExemplo dadosExemplo).alerta_consumo =
      "Alto" :=
  C9_media_substituta registroExemplo dadosExemplo (by decide)

/-- C7: the ledger tier and the notification tier both come from the single
classifier `determinar_tipo_alerta_consumo`: for every input pair the
`tipo_alerta` selected for messages and the `classificacao` persisted in the
ledger are the two fields of one and the same classifier result (so they
always correspond under the canonical tier mapping); and when the alert path
is fed the values the ledger stored for an accepted invoice with positive
integer consumption, the message tier maps exactly to the persisted ledger
tier. -/
theorem C7_classificacao_consistente (q m : ℚ) (c : ℤ) :
    classificacao_do_tipo ((determinar_tipo_alerta_consumo q m).tipo_alerta) =
      (determinar_tipo_alerta_consumo q m).classificacao ∧
    (0 < c →
      classificacao_do_tipo (tipo_alerta_selecionado ((c : ℚ))
        ((calcular_medias_consumo_sem_pandas ((c : ℚ))).media_6_meses)) =
      (calcular_medias_consumo_sem_pandas ((c : ℚ))).alerta_consumo) := by
  constructor
  · rw [determinar_tipo_alerta_consumo]
    dsimp only
    split_ifs <;> rfl
  · intro hpos
    have hq : (0 : ℚ) < ((c : ℚ)) := by exact_mod_cast hpos
    have hmed : calcular_medias_consumo_sem_pandas ((c : ℚ)) =
        ⟨(c : ℚ), 0, 100, "Alto"⟩ := by
      rw [calcular_medias_consumo_pos _ hq, round2_intCast,
        (determinar_tipo_alerta_consumo_igual _ hq).1]
    rw [hmed]
    dsimp only
    rw [tipo_alerta_selecionado, if_pos ⟨hq, hq⟩,
      (determinar_tipo_alerta_consumo_igual _ hq).2]
    rfl

/-- Witness for C7: at the concrete pair `(170, 100)` the message tier
`consumo_critico` maps to the ledger tier `Crítico`, and for the concrete
accepted consumption 280 the message tier agrees with the stored `Alto`. -/
theorem C7_classificacao_consistente_witness :
    classificacao_do_tipo
        ((determinar_tipo_alerta_consumo 170 100).tipo_alerta) =
      (determinar_tipo_alerta_consumo 170 100).classificacao ∧
    classificacao_do_tipo (tipo_alerta_selecionado ((280 : ℤ) : ℚ)
        ((calcular_medias_consumo_sem_pandas (((280 : ℤ) : ℚ))).media_6_meses))
      = (calcular_medias_consumo_sem_pandas
        (((280 : ℤ) : ℚ))).alerta_consumo :=
  ⟨(C7_classificacao_consistente 170 100 280).1,
   (C7_classificacao_consistente 170 100 280).2 (by decide)⟩
